import Mathlib

/-
Verification of the voice-catalog aggregation service (main.py of
TTSVoicesAvailable): a shallow embedding of the voice data model, geo
enrichment, per-engine voice loading, the in-memory cache, the filter
pipeline and the pagination of the /voices endpoint, together with
theorems about the behaviours the specification describes.

Machine integers do not occur in the modelled code; timestamps are
modelled as integers (seconds), matching datetime arithmetic, and
latitude/longitude values (JSON numbers passed through unchanged, never
computed with) are modelled as rationals.
-/

namespace TTSApi

/-- Entry of geo-data.json: a record with keys language_id, latitude,
longitude, language (see load_geo_data / find_geo_info in main.py). -/
structure GeoItem where
  language_id : String
  latitude : Rat
  longitude : Rat
  language : String
deriving DecidableEq, Repr

/-- One element of a normalized voice's languages list, as built in
load_voices_from_source: a dict with keys language_code, latitude,
longitude, language. -/
structure LangEntry where
  language_code : String
  latitude : Rat
  longitude : Rat
  language : String
deriving DecidableEq, Repr

/-- A raw provider voice record, before normalization.  Per the provider
SDK contract (and the Voice pydantic model in main.py) it carries keys
id, name, gender (optional) and language_codes. -/
structure RawVoice where
  id : String
  name : String
  gender : Option String
  language_codes : List String
deriving DecidableEq, Repr

/-- A normalized voice dictionary as produced by load_voices_from_source:
the raw record's keys, plus engine (set to the engine it was loaded for)
and languages (the geo-enriched entries).  gender = none models both a
missing gender key and an explicit null. -/
structure Voice where
  id : String
  name : String
  gender : Option String
  engine : String
  language_codes : List String
  languages : List LangEntry
deriving DecidableEq, Repr

/-- Exceptions the modelled code can raise: HTTPException(status, detail)
from load_voices_from_source; NameError for reading an unbound local
variable; attributeError for calling .lower() on None (or reading a
missing dict key) in the gender filter. -/
inductive Err where
  | httpException (status : Nat) (detail : String)
  | nameError
  | attributeError
deriving DecidableEq, Repr

/-- Python str.lower(), character by character (the modelled strings are
ASCII identifiers, language codes, names and genders). -/
def py_lower (s : String) : String := String.mk (s.data.map Char.toLower)

/-- find_geo_info (main.py lines 55-59): scan geo_data in order for the
first item whose language_id equals the code; on a miss return the
defaults (0.0, 0.0, 'Unknown'). -/
def find_geo_info (language_code : String) (geo_data : List GeoItem) : Rat × Rat × String :=
  match geo_data.find? (fun item => item.language_id == language_code) with
  | some item => (item.latitude, item.longitude, item.language)
  | none => (0, 0, "Unknown")

/-- The geo-enrichment loop of load_voices_from_source (lines 84-95):
one languages entry per code in voice["language_codes"], in order,
each from find_geo_info; the engine key was set when the record was
loaded. -/
def enrich (engine : String) (geo_data : List GeoItem) (v : RawVoice) : Voice :=
  { id := v.id
    name := v.name
    gender := v.gender
    engine := engine
    language_codes := v.language_codes
    languages := v.language_codes.map (fun c =>
      let g := find_geo_info c geo_data
      { language_code := c, latitude := g.1, longitude := g.2.1, language := g.2.2 }) }

/-- The sentinel record substituted by load_voices_from_source when the
live fetch raises (line 80): id "error", empty language_codes, name
"Error fetching voices"; the dict has no gender key. -/
def errorRaw : RawVoice :=
  { id := "error", name := "Error fetching voices", gender := none, language_codes := [] }

/-- The process environment of main.py, abstracted: the known engine
list, the static per-engine voice-dump files under tts-data/, whether
get_tts can construct a client for an engine (the baseline engines), the
live fetch capability tts.get_voices() (which may raise), and the loaded
geo table. -/
structure Ctx where
  engines_list : List String
  staticFile : String → Option (List RawVoice)
  hasTts : String → Bool
  fetch : String → Except Unit (List RawVoice)
  geo_data : List GeoItem

/-- load_voices_from_source (main.py lines 61-95) for an engine: prefer
the static JSON file; otherwise, with a constructible TTS client, call
the live fetch, and if it raises substitute the single sentinel record
(the exception is caught, not propagated); with no client raise
HTTPException(400, "Invalid engine").  All records are geo-enriched.
The Bool reports whether the live fetch capability was invoked. -/
def load_voices_from_source (ctx : Ctx) (engine : String) :
    Except Err (List Voice × Bool) :=
  match ctx.staticFile engine with
  | some voices_raw => .ok (voices_raw.map (enrich engine ctx.geo_data), false)
  | none =>
    if ctx.hasTts engine then
      match ctx.fetch engine with
      | .ok voices_raw => .ok (voices_raw.map (enrich engine ctx.geo_data), true)
      | .error _ => .ok ([enrich engine ctx.geo_data errorRaw], true)
    else
      .error (.httpException 400 "Invalid engine")

/-- The in-memory cache dict of main.py: engine key to (data, timestamp),
modelled as an association list where the most recent assignment for a
key stands first, so lookup sees exactly the dict's current value. -/
abbrev Cache := List (String × (List Voice × Int))

/-- timedelta(days=1) in seconds: the fixed freshness window. -/
def day : Int := 86400

/-- cache_voices (main.py lines 181-185): cache[engine] = data plus the
current timestamp. -/
def cache_voices (c : Cache) (engine : String) (voices : List Voice) (now : Int) : Cache :=
  (engine, (voices, now)) :: c

/-- get_cached_voices (main.py lines 187-191): return the cached data
when an entry exists and its age is strictly below one day, else None. -/
def get_cached_voices (c : Cache) (now : Int) (engine : String) : Option (List Voice) :=
  match c.lookup engine with
  | some (data, ts) => if now - ts < day then some data else none
  | none => none

/-- The single-engine branch of get_voices (main.py lines 196-203):
voices starts as []; unless ignore_cache it is overwritten by the cache
lookup; when the result is falsy (None or empty) the source is loaded
and, unless ignore_cache, cached.  Returns the acquired voices, the new
cache and whether the live fetch was invoked. -/
def acquireSingle (ctx : Ctx) (c : Cache) (now : Int) (engine : String)
    (ignore_cache : Bool) : Except Err (List Voice × Cache × Bool) :=
  let e := py_lower engine
  let voices : Option (List Voice) :=
    if ignore_cache then some [] else get_cached_voices c now e
  if (match voices with | none => true | some l => l.isEmpty : Bool) then
    match load_voices_from_source ctx e with
    | .error err => .error err
    | .ok (v, fetched) =>
      let c' := if ignore_cache then c else cache_voices c e v now
      .ok (v, c', fetched)
  else
    .ok (voices.getD [], c, false)

/-- The body of the all-engines loop of get_voices (main.py lines
204-219).  The accumulator eng_voices models the Python local variable
eng_voices: none means the name is still unbound (reading it raises
NameError), some v its current value (which may itself be Python None,
the inner Option).  A failing load_voices_from_source is caught and the
engine skipped (continue); eng_voices keeps its previous binding. -/
def acquireAllAux (ctx : Ctx) (ignore_cache : Bool) (now : Int) :
    List String → List Voice → Option (Option (List Voice)) → Cache →
    Except Err (List Voice × Cache)
  | [], acc, _, c => .ok (acc, c)
  | eng :: rest, acc, eng_voices, c =>
    let ev : Option (Option (List Voice)) :=
      if ignore_cache then eng_voices else some (get_cached_voices c now eng)
    match ev with
    | none => .error .nameError
    | some v =>
      if (match v with | none => true | some l => l.isEmpty : Bool) then
        match load_voices_from_source ctx eng with
        | .error _ => acquireAllAux ctx ignore_cache now rest acc (some v) c
        | .ok (vs, _) =>
          let c' := if ignore_cache then c else cache_voices c eng vs now
          acquireAllAux ctx ignore_cache now rest (acc ++ vs) (some (some vs)) c'
      else
        acquireAllAux ctx ignore_cache now rest (acc ++ v.getD []) (some v) c

/-- The all-engines branch of get_voices: iterate engines_list in order,
with the eng_voices local initially unbound. -/
def acquireAll (ctx : Ctx) (c : Cache) (now : Int) (ignore_cache : Bool) :
    Except Err (List Voice × Cache) :=
  acquireAllAux ctx ignore_cache now ctx.engines_list [] none c

/-- Levenshtein edit distance between two character lists, the metric of
the fuzzysearch collaborator's max_l_dist bound. -/
def lev : List Char → List Char → Nat
  | [], ys => ys.length
  | x :: xs, [] => (x :: xs).length
  | x :: xs, y :: ys =>
    if x = y then lev xs ys
    else 1 + min (lev xs (y :: ys)) (min (lev (x :: xs) ys) (lev xs ys))
termination_by xs ys => xs.length + ys.length

/-- The fuzzysearch collaborator find_near_matches(pat, text, max_l_dist),
as a Boolean: does some substring of text lie within Levenshtein distance
max_l_dist of the pattern. -/
def find_near_matches (pat text : String) (max_l_dist : Nat) : Bool :=
  let t := text.data
  (List.range (t.length + 1)).any fun i =>
    (List.range (t.length + 1 - i)).any fun len =>
      lev pat.data ((t.drop i).take len) ≤ max_l_dist

/-- Python voice.get('language', '') in the lang_name filter (main.py
line 173): the dictionaries reaching filter_voices are built by
load_voices_from_source, whose keys are the raw record's keys (id, name,
gender, language_codes) plus engine and languages — there is no
'language' key, so the .get call returns the default ''. -/
def Voice.getLanguageDefault (_ : Voice) : String := ""

/-- The lang_name predicate of filter_voices (main.py lines 171-174):
iterate voice.get('language', '') — iterating a string yields its
characters — and test each with find_near_matches at max_l_dist 1. -/
def lang_name_matches (lang_name : String) (voice : Voice) : Bool :=
  voice.getLanguageDefault.data.any fun lang =>
    find_near_matches (py_lower lang_name) (py_lower (String.mk [lang])) 1

/-- Python substring membership s1 in s2 (the name filter, main.py line
176): some suffix of the haystack starts with the needle. -/
def str_mem (needle hay : String) : Bool :=
  (List.range (hay.data.length + 1)).any fun i => needle.data.isPrefixOf (hay.data.drop i)

/-- The gender filter comprehension (main.py line 178): for each voice,
evaluate gender.lower() == voice['gender'].lower(); a voice whose gender
is None (or whose dict lacks the key) raises, aborting the whole
request. -/
def gender_pass (gender : String) : List Voice → Except Err (List Voice)
  | [] => .ok []
  | voice :: rest =>
    match voice.gender with
    | none => .error .attributeError
    | some g =>
      match gender_pass gender rest with
      | .error e => .error e
      | .ok kept => .ok (if py_lower gender = py_lower g then voice :: kept else kept)

/-- filter_voices (main.py lines 166-179): the four narrowing passes in
their fixed order, each applied only when its argument is truthy (a
present, non-empty string): exact case-sensitive membership for
lang_code, the fuzzy lang_name pass, case-insensitive substring for
name, and the gender pass (which can raise). -/
def filter_voices (voices : List Voice)
    (lang_code lang_name name gender : Option String) : Except Err (List Voice) :=
  let fv := voices
  let fv := match lang_code with
    | some lc => if lc ≠ "" then fv.filter (fun v => v.language_codes.contains lc) else fv
    | none => fv
  let fv := match lang_name with
    | some ln => if ln ≠ "" then fv.filter (lang_name_matches ln) else fv
    | none => fv
  let fv := match name with
    | some n =>
      if n ≠ "" then fv.filter (fun v => str_mem (py_lower n) (py_lower v.name)) else fv
    | none => fv
  match gender with
  | some g => if g ≠ "" then gender_pass g fv else .ok fv
  | none => .ok fv

/-- The pagination step of get_voices (main.py lines 223-229): page_size
0 returns everything; otherwise the slice from (page-1)*page_size of
length page_size (a Python slice clamps, never fails). -/
def paginate (page page_size : Nat) (filtered : List Voice) : List Voice :=
  if page_size = 0 then filtered
  else (filtered.drop ((page - 1) * page_size)).take page_size

/-- get_voices (main.py lines 193-231): acquire voices (single-engine or
all-engines), filter, paginate.  The Bool of the result is the
live-fetch flag of the single-engine acquisition (False for the
all-engines branch, whose per-engine flags the claims do not need). -/
def get_voices (ctx : Ctx) (c : Cache) (now : Int) (engine : Option String)
    (lang_code lang_name name gender : Option String)
    (page page_size : Nat) (ignore_cache : Bool) :
    Except Err (List Voice × Cache × Bool) :=
  match engine with
  | some e =>
    match acquireSingle ctx c now e ignore_cache with
    | .error err => .error err
    | .ok (voices, c', fetched) =>
      match filter_voices voices lang_code lang_name name gender with
      | .error err => .error err
      | .ok filtered => .ok (paginate page page_size filtered, c', fetched)
  | none =>
    match acquireAll ctx c now ignore_cache with
    | .error err => .error err
    | .ok (voices, c') =>
      match filter_voices voices lang_code lang_name name gender with
      | .error err => .error err
      | .ok filtered => .ok (paginate page page_size filtered, c', false)

/-- A geo table entry for en-US, used in concrete instances. -/
def geoEn : GeoItem :=
  { language_id := "en-US", latitude := 1, longitude := 2, language := "English" }

/-- A normalized voice whose only language display name is English. -/
def vEnglish : Voice :=
  { id := "v1", name := "Amy", gender := some "Female", engine := "polly",
    language_codes := ["en-US"],
    languages := [{ language_code := "en-US", latitude := 1, longitude := 2,
                    language := "English" }] }

/-- A normalized voice with a null gender (the raw record carried none). -/
def vNoGender : Voice :=
  { id := "n1", name := "Neo", gender := none, engine := "polly",
    language_codes := [], languages := [] }

/-- A raw record listing the code en-US in provider casing. -/
def rawA : RawVoice :=
  { id := "a1", name := "Alpha", gender := some "Male", language_codes := ["en-US"] }

/-- A second raw record, for a different engine. -/
def rawC : RawVoice :=
  { id := "c1", name := "Gamma", gender := some "Female", language_codes := ["fr-FR"] }

/-- A raw record with one geo-matched and one unmatched language code. -/
def rawW : RawVoice :=
  { id := "w", name := "W", gender := none, language_codes := ["en-US", "zz"] }

/-- Three live engines with no static files; the fetch for google fails,
the other two succeed. -/
def ctx3 : Ctx :=
  { engines_list := ["polly", "google", "microsoft"]
    staticFile := fun _ => none
    hasTts := fun _ => true
    fetch := fun e =>
      if e = "polly" then .ok [rawA]
      else if e = "microsoft" then .ok [rawC]
      else .error ()
    geo_data := [] }

/-- A single live engine whose fetch always fails. -/
def ctxFail : Ctx :=
  { engines_list := ["polly"]
    staticFile := fun _ => none
    hasTts := fun _ => true
    fetch := fun _ => .error ()
    geo_data := [] }

/-- A single live engine whose fetch succeeds with an empty voice list. -/
def ctxEmptyFetch : Ctx :=
  { engines_list := ["polly"]
    staticFile := fun _ => none
    hasTts := fun _ => true
    fetch := fun _ => .ok []
    geo_data := [] }

/-- A single live engine whose fetch succeeds with one record. -/
def ctxOne : Ctx :=
  { engines_list := ["polly"]
    staticFile := fun _ => none
    hasTts := fun _ => true
    fetch := fun _ => .ok [rawA]
    geo_data := [geoEn] }

example : filter_voices [vEnglish] none (some "English") none none = .ok [] := by rfl

example : filter_voices [vNoGender] none none none (some "male") = .error .attributeError := by
  rfl

example : filter_voices [vEnglish] (some "en-us") none none none = .ok [] := by rfl

example : filter_voices [vEnglish] (some "en-US") none none none = .ok [vEnglish] := by rfl

example :
    (acquireAll ctx3 [] 0 false).map (fun r => r.1) =
      .ok [enrich "polly" [] rawA, enrich "google" [] errorRaw, enrich "microsoft" [] rawC] := by
  rfl

example :
    (get_voices ctxFail [] 0 (some "polly") none none none none 1 0 false).map (fun r => r.1) =
      .ok [enrich "polly" [] errorRaw] := by rfl

example :
    acquireSingle ctxEmptyFetch [] 0 "polly" false = .ok ([], [("polly", ([], 0))], true) := by
  rfl

example :
    (acquireSingle ctxEmptyFetch [("polly", ([], 0))] 10 "polly" false).map (fun r => r.2.2) =
      .ok true := by rfl

example :
    acquireSingle ctxOne [] 0 "polly" false =
      .ok ([enrich "polly" [geoEn] rawA], [("polly", ([enrich "polly" [geoEn] rawA], 0))], true) := by
  rfl

example : get_cached_voices (cache_voices [] "polly" [vEnglish] 0) 86399 "polly" = some [vEnglish] := by rfl

example : get_cached_voices (cache_voices [] "polly" [vEnglish] 0) 86400 "polly" = none := by rfl

example : acquireAll ctx3 [] 0 true = .error .nameError := by rfl

/-- A successful single-engine acquisition that invoked the live fetch
went through the cache-miss branch: the returned cache is the input
cache extended with the fetched voices at the current time. -/
theorem acquireSingle_fetched_cache (ctx : Ctx) (c0 : Cache) (t1 : Int) (e : String)
    (v1 : List Voice) (c1 : Cache)
    (h1 : acquireSingle ctx c0 t1 e false = .ok (v1, c1, true)) :
    c1 = cache_voices c0 (py_lower e) v1 t1 := by
  unfold acquireSingle at h1
  simp only [Bool.false_eq_true, if_false] at h1
  split at h1
  · split at h1
    · exact absurd h1 (by simp)
    · simp only [Except.ok.injEq, Prod.mk.injEq] at h1
      obtain ⟨h2, h3, -⟩ := h1
      subst h2
      exact h3.symm
  · simp only [Except.ok.injEq, Prod.mk.injEq] at h1
    exact absurd h1.2.2 (by simp)

/-- A fresh, non-empty cache entry short-circuits the single-engine
acquisition: the cached snapshot is returned, the cache is unchanged and
the live fetch is not invoked. -/
theorem acquireSingle_cache_hit (ctx : Ctx) (c : Cache) (t : Int) (e : String)
    (v : List Voice) (ts : Int)
    (hl : c.lookup (py_lower e) = some (v, ts)) (hfresh : t - ts < day) (hne : v ≠ []) :
    acquireSingle ctx c t e false = .ok (v, c, false) := by
  have hgc : get_cached_voices c t (py_lower e) = some v := by
    simp [get_cached_voices, hl, hfresh]
  unfold acquireSingle
  simp only [Bool.false_eq_true, if_false, hgc]
  cases v with
  | nil => exact absurd rfl hne
  | cons a l => simp

/-- Claim C1 (refuted; code bug): the langName filter is claimed to keep
every voice having a language display name within edit distance 1 of the
query, but filter_voices reads voice.get('language', ''), a key the
normalized voice dictionaries never carry, so the filter drops every
voice: here a voice whose unique language display name is exactly the
query "English" is removed. -/
theorem c1_lang_name_filter_drops_exact_match :
    filter_voices [vEnglish] none (some "English") none none = .ok [] ∧
    (vEnglish.languages.map (fun en => en.language)).contains "English" = true :=
  ⟨rfl, rfl⟩

/-- Claim C4 (refuted; code bug): the gender filter is claimed never to
fail and to exclude voices with null gender, but filter_voices evaluates
voice['gender'].lower() unconditionally, so a voice whose gender is None
raises (AttributeError) and aborts the whole request. -/
theorem c4_gender_filter_raises_on_null :
    filter_voices [vNoGender] none none none (some "male") = .error .attributeError ∧
    vNoGender.gender = none :=
  ⟨rfl, rfl⟩

/-- Claim C5 (counterexample): the langCode filter is claimed to match
case-insensitively, so that a voice listing "en-US" is kept for the query
"en-us"; the code tests exact list membership, and the voice is
removed. -/
theorem c5_lang_code_query_case_mismatch_drops_voice :
    filter_voices [vEnglish] (some "en-us") none none none = .ok [] ∧
    vEnglish.language_codes = ["en-US"] :=
  ⟨rfl, rfl⟩

/-- Claim C5 (amended): for every voice list and non-empty langCode
query, the langCode filter keeps exactly those voices whose raw
language-code list contains the query as an exact, case-sensitive match,
preserving order. -/
theorem c5_lang_code_filter_exact_case_sensitive (voices : List Voice) (q : String)
    (hq : q ≠ "") :
    ∃ kept, filter_voices voices (some q) none none none = .ok kept ∧
      kept.Sublist voices ∧
      ∀ v, v ∈ kept ↔ v ∈ voices ∧ v.language_codes.contains q = true := by
  refine ⟨voices.filter (fun v => v.language_codes.contains q), ?_, ?_, ?_⟩
  · simp [filter_voices, hq]
  · exact List.filter_sublist voices
  · intro v
    simp [List.mem_filter]

/-- Witness for c5_lang_code_filter_exact_case_sensitive at a concrete
voice list and query. -/
theorem c5_lang_code_filter_exact_case_sensitive_witness :
    ("en-US" : String) ≠ "" ∧
    ∃ kept, filter_voices [vEnglish] (some "en-US") none none none = .ok kept ∧
      kept.Sublist [vEnglish] ∧
      ∀ v, v ∈ kept ↔ v ∈ [vEnglish] ∧ v.language_codes.contains "en-US" = true :=
  ⟨by decide, c5_lang_code_filter_exact_case_sensitive [vEnglish] "en-US" (by decide)⟩

/-- Claim C2 (counterexample): with three live engines where google's
fetch fails, the all-engines acquisition does not return exactly the
concatenation of the successful engines' voices — the failing engine
contributes a sentinel error voice as an extra entry. -/
theorem c2_failed_engine_adds_sentinel_entry :
    (acquireAll ctx3 [] 0 false).map (fun r => r.1) =
      .ok [enrich "polly" [] rawA, enrich "google" [] errorRaw, enrich "microsoft" [] rawC] ∧
    ([enrich "polly" [] rawA, enrich "google" [] errorRaw, enrich "microsoft" [] rawC] :
        List Voice) ≠ [enrich "polly" [] rawA, enrich "microsoft" [] rawC] :=
  ⟨rfl, by decide⟩

/-- Claim C2 (amended): in an all-engines query where one engine's live
fetch fails, the request still succeeds and the other engines' voices
are all returned, but the failing engine contributes a single sentinel
error voice (id "error", name "Error fetching voices") at its position
in the engine order, not the empty set. -/
theorem c2_all_engines_degradation (ctx : Ctx) (e1 e2 e3 : String) (now : Int)
    (r1 r3 : List RawVoice)
    (hl : ctx.engines_list = [e1, e2, e3])
    (h21 : e2 ≠ e1) (h31 : e3 ≠ e1) (h32 : e3 ≠ e2)
    (hs1 : ctx.staticFile e1 = none) (hs2 : ctx.staticFile e2 = none)
    (hs3 : ctx.staticFile e3 = none)
    (ht1 : ctx.hasTts e1 = true) (ht2 : ctx.hasTts e2 = true) (ht3 : ctx.hasTts e3 = true)
    (hf1 : ctx.fetch e1 = .ok r1) (hf2 : ctx.fetch e2 = .error ())
    (hf3 : ctx.fetch e3 = .ok r3) :
    (get_voices ctx [] now none none none none none 1 0 false).map (fun r => r.1) =
      .ok (r1.map (enrich e1 ctx.geo_data) ++ [enrich e2 ctx.geo_data errorRaw]
            ++ r3.map (enrich e3 ctx.geo_data)) := by
  have l21 : (e2 == e1) = false := by simpa using h21
  have l31 : (e3 == e1) = false := by simpa using h31
  have l32 : (e3 == e2) = false := by simpa using h32
  simp [get_voices, acquireAll, hl, acquireAllAux, get_cached_voices, cache_voices,
        List.lookup, load_voices_from_source, hs1, hs2, hs3, ht1, ht2, ht3,
        hf1, hf2, hf3, l21, l31, l32, filter_voices, paginate, Except.map]

/-- Witness for c2_all_engines_degradation at the concrete three-engine
environment ctx3. -/
theorem c2_all_engines_degradation_witness :
    ctx3.engines_list = ["polly", "google", "microsoft"] ∧
    ("google" : String) ≠ "polly" ∧ ("microsoft" : String) ≠ "polly" ∧
    ("microsoft" : String) ≠ "google" ∧
    ctx3.fetch "polly" = .ok [rawA] ∧ ctx3.fetch "google" = .error () ∧
    ctx3.fetch "microsoft" = .ok [rawC] ∧
    (get_voices ctx3 [] 0 none none none none none 1 0 false).map (fun r => r.1) =
      .ok ([rawA].map (enrich "polly" ctx3.geo_data)
            ++ [enrich "google" ctx3.geo_data errorRaw]
            ++ [rawC].map (enrich "microsoft" ctx3.geo_data)) :=
  ⟨rfl, by decide, by decide, by decide, rfl, rfl, rfl,
   c2_all_engines_degradation ctx3 "polly" "google" "microsoft" 0 [rawA] [rawC]
     rfl (by decide) (by decide) (by decide) rfl rfl rfl rfl rfl rfl rfl rfl rfl⟩

/-- Claim C3 (counterexample): a single-engine query for a live engine
whose fetch raises does not fail — it succeeds and returns the sentinel
error voice. -/
theorem c3_single_engine_fetch_failure_returns_ok :
    (get_voices ctxFail [] 0 (some "polly") none none none none 1 0 false).map (fun r => r.1) =
      .ok [enrich "polly" [] errorRaw] ∧
    ctxFail.fetch "polly" = .error () :=
  ⟨rfl, rfl⟩

/-- Claim C3 (amended): in a single-engine query for a known live engine
with no static file and no fresh cached value, a failing live fetch is
caught inside load_voices_from_source: the query succeeds, returning the
single sentinel error voice, which is also written to the cache. -/
theorem c3_single_engine_fetch_failure_sentinel (ctx : Ctx) (c : Cache) (now : Int)
    (e : String)
    (hs : ctx.staticFile (py_lower e) = none)
    (ht : ctx.hasTts (py_lower e) = true)
    (hf : ctx.fetch (py_lower e) = .error ())
    (hc : (get_cached_voices c now (py_lower e)).getD [] = []) :
    get_voices ctx c now (some e) none none none none 1 0 false =
      .ok ([enrich (py_lower e) ctx.geo_data errorRaw],
           cache_voices c (py_lower e) [enrich (py_lower e) ctx.geo_data errorRaw] now,
           true) := by
  have hfalsy : (match get_cached_voices c now (py_lower e) with
      | none => true | some l => l.isEmpty) = true := by
    cases hgc : get_cached_voices c now (py_lower e) with
    | none => rfl
    | some l =>
      rw [hgc] at hc
      simp only [Option.getD_some] at hc
      simp [hc]
  simp [get_voices, acquireSingle, hfalsy, load_voices_from_source, hs, ht, hf,
        filter_voices, paginate]

/-- Witness for c3_single_engine_fetch_failure_sentinel at the concrete
failing-engine environment ctxFail. -/
theorem c3_single_engine_fetch_failure_sentinel_witness :
    ctxFail.staticFile (py_lower "polly") = none ∧
    ctxFail.hasTts (py_lower "polly") = true ∧
    ctxFail.fetch (py_lower "polly") = .error () ∧
    (get_cached_voices [] 0 (py_lower "polly")).getD [] = [] ∧
    get_voices ctxFail [] 0 (some "polly") none none none none 1 0 false =
      .ok ([enrich (py_lower "polly") ctxFail.geo_data errorRaw],
           cache_voices [] (py_lower "polly")
             [enrich (py_lower "polly") ctxFail.geo_data errorRaw] 0,
           true) :=
  ⟨rfl, rfl, rfl, rfl,
   c3_single_engine_fetch_failure_sentinel ctxFail [] 0 "polly" rfl rfl rfl rfl⟩

/-- Claim C6 (counterexample): for an engine whose successful fetch
returns an empty voice list, a second query within the freshness window
re-invokes the live fetch (the flag of the second acquisition is true):
the cached empty list is falsy, so the cache read does not stop the
reload. -/
theorem c6_empty_fetch_is_refetched :
    acquireSingle ctxEmptyFetch [] 0 "polly" false = .ok ([], [("polly", ([], 0))], true) ∧
    (acquireSingle ctxEmptyFetch [("polly", ([], 0))] 10 "polly" false).map (fun r => r.2.2) =
      .ok true ∧
    (10 : Int) - 0 < day :=
  ⟨rfl, rfl, by decide⟩

/-- Claim C6 (amended): two single-engine queries with ignoreCache=false,
the second within 24 hours of the first's fetch, return identical Voice
sequences, and — provided the fetched list was non-empty — the second
call serves the cached snapshot without invoking the provider fetch
again (an empty fetched list is falsy in the cache check and is fetched
anew, though the returned sequence is still identical). -/
theorem c6_cache_read_idempotent (ctx : Ctx) (c0 c1 : Cache) (e : String)
    (t1 t2 : Int) (v1 : List Voice)
    (h1 : acquireSingle ctx c0 t1 e false = .ok (v1, c1, true))
    (hne : v1 ≠ [])
    (hfresh : t2 - t1 < day) :
    acquireSingle ctx c1 t2 e false = .ok (v1, c1, false) ∧
    ∀ lc ln nm g page ps,
      (get_voices ctx c1 t2 (some e) lc ln nm g page ps false).map (fun r => r.1) =
      (get_voices ctx c0 t1 (some e) lc ln nm g page ps false).map (fun r => r.1) := by
  have hc1 : c1 = cache_voices c0 (py_lower e) v1 t1 :=
    acquireSingle_fetched_cache ctx c0 t1 e v1 c1 h1
  have hlook : c1.lookup (py_lower e) = some (v1, t1) := by
    rw [hc1]
    simp [cache_voices, List.lookup]
  have h2 : acquireSingle ctx c1 t2 e false = .ok (v1, c1, false) :=
    acquireSingle_cache_hit ctx c1 t2 e v1 t1 hlook hfresh hne
  refine ⟨h2, fun lc ln nm g page ps => ?_⟩
  simp only [get_voices, h1, h2]
  cases hfv : filter_voices v1 lc ln nm g <;> simp [hfv, Except.map]

/-- Witness for c6_cache_read_idempotent: the one-engine environment
ctxOne, whose fetch returns a single record, queried at times 0 and 10. -/
theorem c6_cache_read_idempotent_witness :
    acquireSingle ctxOne [] 0 "polly" false =
      .ok ([enrich "polly" [geoEn] rawA],
           [("polly", ([enrich "polly" [geoEn] rawA], 0))], true) ∧
    ([enrich "polly" [geoEn] rawA] : List Voice) ≠ [] ∧
    (10 : Int) - 0 < day ∧
    (acquireSingle ctxOne [("polly", ([enrich "polly" [geoEn] rawA], 0))] 10 "polly" false =
        .ok ([enrich "polly" [geoEn] rawA],
             [("polly", ([enrich "polly" [geoEn] rawA], 0))], false) ∧
      ∀ lc ln nm g page ps,
        (get_voices ctxOne [("polly", ([enrich "polly" [geoEn] rawA], 0))] 10 (some "polly")
            lc ln nm g page ps false).map (fun r => r.1) =
        (get_voices ctxOne [] 0 (some "polly") lc ln nm g page ps false).map (fun r => r.1)) :=
  ⟨rfl, by decide, by decide,
   c6_cache_read_idempotent ctxOne [] [("polly", ([enrich "polly" [geoEn] rawA], 0))]
     "polly" 0 10 [enrich "polly" [geoEn] rawA] rfl (by decide) (by decide)⟩

/-- Claim C7 (confirmed): a cache entry populated at time T is returned
by the cache lookup at any time with age under 24 hours and is a miss
from T+24h on; once stale, a single-engine acquisition for a live engine
invokes the provider fetch again. -/
theorem c7_freshness_window (ctx : Ctx) (c : Cache) (e : String) (v : List Voice)
    (T t : Int)
    (hs : ctx.staticFile e = none) (ht : ctx.hasTts e = true)
    (hlow : py_lower e = e) :
    get_cached_voices (cache_voices c e v T) t e = (if t - T < day then some v else none) ∧
    (day ≤ t - T →
      (acquireSingle ctx (cache_voices c e v T) t e false).map (fun r => r.2.2) =
        .ok true) := by
  constructor
  · simp [get_cached_voices, cache_voices, List.lookup]
  · intro hstale
    have hgc : get_cached_voices (cache_voices c e v T) t e = none := by
      simp only [get_cached_voices, cache_voices, List.lookup, beq_self_eq_true, if_true]
      rw [if_neg (not_lt.mpr hstale)]
    unfold acquireSingle
    rw [hlow]
    simp only [Bool.false_eq_true, if_false, hgc]
    simp only [load_voices_from_source, hs, ht, if_true]
    cases hfe : ctx.fetch e <;> simp [hfe, Except.map]

/-- Witness for c7_freshness_window: an entry written at time 0 is fresh
at 86399 and stale at 86400, where the fetch fires again. -/
theorem c7_freshness_window_witness :
    ctxFail.staticFile "polly" = none ∧ ctxFail.hasTts "polly" = true ∧
    py_lower "polly" = "polly" ∧
    (get_cached_voices (cache_voices [] "polly" [vEnglish] 0) 86400 "polly" =
        (if (86400 : Int) - 0 < day then some [vEnglish] else none) ∧
      (day ≤ (86400 : Int) - 0 →
        (acquireSingle ctxFail (cache_voices [] "polly" [vEnglish] 0) 86400 "polly"
            false).map (fun r => r.2.2) = .ok true)) :=
  ⟨rfl, rfl, rfl, c7_freshness_window ctxFail [] "polly" [vEnglish] 0 86400 rfl rfl rfl⟩

/-- Claim C8 (confirmed): pagination with pageSize 0 returns the whole
filtered list; for page at least 1 and positive pageSize it returns
exactly the slice of zero-based indices from (page-1)*pageSize of length
pageSize, and an out-of-range slice is the empty sequence — the
operation is total, never an error. -/
theorem c8_pagination_slice (l : List Voice) (page page_size : Nat) (hp : 1 ≤ page) :
    (page_size = 0 → paginate page page_size l = l) ∧
    (0 < page_size →
      (∀ i, (paginate page page_size l)[i]? =
        if i < page_size then l[(page - 1) * page_size + i]? else none) ∧
      (l.length ≤ (page - 1) * page_size → paginate page page_size l = [])) := by
  have _ : 0 < page := hp
  refine ⟨fun h0 => by simp [paginate, h0], fun hps => ⟨fun i => ?_, fun hlen => ?_⟩⟩
  · have hne : page_size ≠ 0 := Nat.pos_iff_ne_zero.mp hps
    simp only [paginate, if_neg hne]
    by_cases hi : i < page_size
    · rw [List.getElem?_take_of_lt hi, List.getElem?_drop, if_pos hi]
    · rw [if_neg hi]
      exact List.getElem?_eq_none
        (le_trans ((l.drop ((page - 1) * page_size)).length_take_le page_size)
          (not_lt.mp hi))
  · simp [paginate, Nat.pos_iff_ne_zero.mp hps, List.drop_eq_nil_of_le hlen]

/-- Witness for c8_pagination_slice: page 2 of size 1 over a two-voice
list. -/
theorem c8_pagination_slice_witness :
    1 ≤ 2 ∧
    ((1 = 0 → paginate 2 1 [vEnglish, vNoGender] = [vEnglish, vNoGender]) ∧
      (0 < 1 →
        (∀ i, (paginate 2 1 [vEnglish, vNoGender])[i]? =
          if i < 1 then [vEnglish, vNoGender][(2 - 1) * 1 + i]? else none) ∧
        (([vEnglish, vNoGender] : List Voice).length ≤ (2 - 1) * 1 →
          paginate 2 1 [vEnglish, vNoGender] = []))) :=
  ⟨by decide, c8_pagination_slice [vEnglish, vNoGender] 2 1 (by decide)⟩

/-- Claim C9 (confirmed): normalization produces one languages entry per
raw language code, in source order; a code matched in the geo table
carries that (first matching) entry's latitude, longitude and display
name, and an unmatched code carries the sentinel 0.0, 0.0, "Unknown". -/
theorem c9_geo_enrichment_complete (engine : String) (geo : List GeoItem)
    (raw : RawVoice) :
    (enrich engine geo raw).languages.length = raw.language_codes.length ∧
    ∀ i (h : i < raw.language_codes.length),
      ∃ h2 : i < (enrich engine geo raw).languages.length,
        ((enrich engine geo raw).languages.get ⟨i, h2⟩).language_code =
            raw.language_codes.get ⟨i, h⟩ ∧
        (∀ it, geo.find? (fun g => g.language_id == raw.language_codes.get ⟨i, h⟩) =
            some it →
          (enrich engine geo raw).languages.get ⟨i, h2⟩ =
            { language_code := raw.language_codes.get ⟨i, h⟩, latitude := it.latitude,
              longitude := it.longitude, language := it.language }) ∧
        (geo.find? (fun g => g.language_id == raw.language_codes.get ⟨i, h⟩) = none →
          (enrich engine geo raw).languages.get ⟨i, h2⟩ =
            { language_code := raw.language_codes.get ⟨i, h⟩, latitude := 0,
              longitude := 0, language := "Unknown" }) := by
  constructor
  · simp [enrich]
  · intro i h
    have h2 : i < (enrich engine geo raw).languages.length := by
      simpa [enrich] using h
    refine ⟨h2, ?_⟩
    have hget : (enrich engine geo raw).languages.get ⟨i, h2⟩ =
        (fun c => let g := find_geo_info c geo
          ({ language_code := c, latitude := g.1, longitude := g.2.1,
             language := g.2.2 } : LangEntry)) (raw.language_codes.get ⟨i, h⟩) := by
      simp [enrich, List.get_eq_getElem, List.getElem_map]
    refine ⟨by rw [hget], fun it hit => ?_, fun hmiss => ?_⟩
    · rw [hget]
      simp only [List.get_eq_getElem] at hit
      simp [find_geo_info, hit]
    · rw [hget]
      simp only [List.get_eq_getElem] at hmiss
      simp [find_geo_info, hmiss]

/-- Witness for c9_geo_enrichment_complete: the second code of rawW
(index 1, the unmatched code "zz") against the one-entry geo table. -/
theorem c9_geo_enrichment_complete_witness :
    1 < rawW.language_codes.length ∧
    ∃ h2 : 1 < (enrich "polly" [geoEn] rawW).languages.length,
      ((enrich "polly" [geoEn] rawW).languages.get ⟨1, h2⟩).language_code =
          rawW.language_codes.get ⟨1, by decide⟩ ∧
      (∀ it, ([geoEn].find? (fun g =>
          g.language_id == rawW.language_codes.get ⟨1, by decide⟩)) = some it →
        (enrich "polly" [geoEn] rawW).languages.get ⟨1, h2⟩ =
          { language_code := rawW.language_codes.get ⟨1, by decide⟩,
            latitude := it.latitude, longitude := it.longitude,
            language := it.language }) ∧
      (([geoEn].find? (fun g =>
          g.language_id == rawW.language_codes.get ⟨1, by decide⟩)) = none →
        (enrich "polly" [geoEn] rawW).languages.get ⟨1, h2⟩ =
          { language_code := rawW.language_codes.get ⟨1, by decide⟩, latitude := 0,
            longitude := 0, language := "Unknown" }) :=
  ⟨by decide, (c9_geo_enrichment_complete "polly" [geoEn] rawW).2 1 (by decide)⟩

/-- Claim C10 (confirmed): an all-engines query with ignoreCache=true
skips the only assignment to the loop-local eng_voices, so its first
read is an unbound-name error (NameError): whenever the engine list is
non-empty, get_voices raises before returning any voices. -/
theorem c10_ignore_cache_all_engines_unbound (ctx : Ctx) (c : Cache) (now : Int)
    (lc ln nm g : Option String) (page ps : Nat)
    (h : ctx.engines_list ≠ []) :
    get_voices ctx c now none lc ln nm g page ps true = .error .nameError := by
  cases hl : ctx.engines_list with
  | nil => exact absurd hl h
  | cons eng rest => simp [get_voices, acquireAll, hl, acquireAllAux]

/-- Witness for c10_ignore_cache_all_engines_unbound at the concrete
three-engine environment ctx3. -/
theorem c10_ignore_cache_all_engines_unbound_witness :
    ctx3.engines_list ≠ [] ∧
    get_voices ctx3 [] 0 none none none none none 1 50 true = .error .nameError :=
  ⟨by decide, c10_ignore_cache_all_engines_unbound ctx3 [] 0 none none none none 1 50
    (by decide)⟩

end TTSApi
